import Mathlib

/-!
Verification development for the MRZ/OCR intake service.

Sections mirror the source modules:
* `OcrService` — `src/ocr_service/mrz_parser.py` (checksum and TD3 parsing).
* `BotMRZ` — `src/bot/mrz_parser.py` (check weights and confidence score).
* `Pipeline` — `src/ocr_service/pipeline.py` (date decoding).
* `Engines` — `src/ocr_service/engines.py` (SLA decision engine).
* `Orchestrator` — `src/ocr_service/orchestrator.py` and `repository.py`.
* `Checklist` — `src/checklist_engine/engine.py`, `rules.py`, `models.py`.

Machine text is modelled as `List Char`; Python float scores are modelled as `ℚ`
(all scores involved are exact quarters/thirds); external primitives that the
claims do not depend on (SHA-256 digests, wall-clock timestamps inside audit
entries, third-party OCR libraries) are noted where omitted.
-/

namespace OcrService

/-- Character value table of `MRZParser._char_value`: a digit maps to its value,
a letter A-Z to 10-35 (`ord(char) - 55`), the filler `<` and anything else to 0. -/
def charValue (c : Char) : Nat :=
  if c.isDigit then c.toNat - 48
  else if 'A' ≤ c ∧ c ≤ 'Z' then c.toNat - 55
  else 0

/-- Weight table `_WEIGHTS = (7, 3, 1)`, indexed by `i % 3`. -/
def weightAt (n : Nat) : Nat :=
  if n = 0 then 7 else if n = 1 then 3 else 1

/-- Checksum of `MRZParser.checksum`: running total over `enumerate(value)` of
`char_value(ch) * _WEIGHTS[i % 3]`, taken mod 10. -/
def checksum (v : List Char) : Nat :=
  (v.enum.foldl (fun acc p => acc + charValue p.2 * weightAt (p.1 % 3)) 0) % 10

/-- Check-digit validation `MRZParser.validate`: the check character must be a
digit and the field checksum must equal its numeric value.  (The Python guard
`not check_char` for an empty string cannot arise here: the check character is
always one character sliced out of a length-verified line.) -/
def validate (v : List Char) (check : Char) : Bool :=
  check.isDigit && (checksum v == check.toNat - 48)

/-- Python slice `l[a:b]` on a list of characters. -/
def pySlice (l : List Char) (a b : Nat) : List Char :=
  (l.drop a).take (b - a)

/-- Python index `l[i]`; used only at indices below the verified line length,
so the default is unreachable. -/
def pyAt (l : List Char) (i : Nat) : Char :=
  l.getD i '<'

/-- Normalization `MRZParser._normalize_line`: uppercase, then strip every
character outside `[A-Z0-9<]`. -/
def normalizeLine (l : List Char) : List Char :=
  (l.map Char.toUpper).filter fun c =>
    ('A' ≤ c ∧ c ≤ 'Z') ∨ ('0' ≤ c ∧ c ≤ '9') ∨ c = '<'

/-- Python `value.split("<<")`: greedy left-to-right split on the double filler. -/
def splitSep2 : List Char → List (List Char)
  | [] => [[]]
  | '<' :: '<' :: rest => [] :: splitSep2 rest
  | c :: rest =>
    match splitSep2 rest with
    | [] => [[c]]
    | h :: t => (c :: h) :: t

/-- Python `value.replace("<", " ")` on the name components. -/
def ltToSpace (l : List Char) : List Char :=
  l.map fun c => if c = '<' then ' ' else c

/-- Python `value.strip()`; only spaces occur in the decoded name components. -/
def stripSpaces (l : List Char) : List Char :=
  ((l.dropWhile (· = ' ')).reverse.dropWhile (· = ' ')).reverse

/-- MRZ identity record of `ocr_service.models.MRZData`.  The source stores
`passport_hash = sha256(passport_number)`; SHA-256 is an external primitive, so
the record keeps the normalized `passportNumber` the digest is derived from.
`None` string fields of the empty record are modelled as `""`. -/
structure MRZData where
  format : String
  documentType : String
  issuingCountry : String
  surname : String
  givenNames : String
  passportNumber : String
  nationality : String
  birthDate : String
  sex : String
  expiryDate : String
  checksumOk : Bool
  confidence : ℚ
deriving Repr, DecidableEq

/-- Check results dictionary built by `MRZParser.parse_td3` for the four
checksum checks.  (The optional `checker` entry produced by the third-party
`mrz` library is an external dependency and not part of the four checks.) -/
structure TD3Checks where
  passport : Bool
  birthDate : Bool
  expiry : Bool
  composite : Bool
deriving Repr, DecidableEq

/-- Return value of `MRZParser.parse_td3`. -/
structure MRZValidation where
  line1 : List Char
  line2 : List Char
  parsed : MRZData
  checks : TD3Checks
deriving Repr, DecidableEq

/-- Count `valid_count = sum(1 for key in ("passport", "birth_date", "expiry")
if checks.get(key))` of `MRZParser.parse_td3`. -/
def validCount3 (c : TD3Checks) : Nat :=
  (if c.passport then 1 else 0) + (if c.birthDate then 1 else 0) +
    (if c.expiry then 1 else 0)

/-- Zero-confidence record returned when a line fails the width check
(`MRZData(confidence=0.0, checksum_ok=False, format="TD3")`). -/
def emptyMRZ : MRZData :=
  { format := "TD3", documentType := "", issuingCountry := "", surname := ""
    givenNames := "", passportNumber := "", nationality := "", birthDate := ""
    sex := "", expiryDate := "", checksumOk := false, confidence := 0 }

/-- Surname component: `names[0].replace("<", " ").strip()`. -/
def surnameOf (nameField : List Char) : String :=
  (stripSpaces (ltToSpace ((splitSep2 nameField).getD 0 []))).asString

/-- Given-names component: `names[1].replace("<", " ").strip()` when the split
has a second component, else `""`. -/
def givenOf (nameField : List Char) : String :=
  let parts := splitSep2 nameField
  if parts.length > 1 then (stripSpaces (ltToSpace (parts.getD 1 []))).asString
  else ""

/-- Four-entry checks dictionary of `MRZParser.parse_td3` for a normalized,
length-verified second line: document number `l2[0:9]` against `l2[9]`,
birth date `l2[13:19]` against `l2[19]`, expiry `l2[21:27]` against `l2[27]`,
and the composite field `l2[0:10] + l2[13:20] + l2[21:43]` against `l2[43]`. -/
def td3Checks (l2 : List Char) : TD3Checks :=
  { passport := validate (pySlice l2 0 9) (pyAt l2 9)
    birthDate := validate (pySlice l2 13 19) (pyAt l2 19)
    expiry := validate (pySlice l2 21 27) (pyAt l2 27)
    composite :=
      validate (pySlice l2 0 10 ++ pySlice l2 13 20 ++ pySlice l2 21 43)
        (pyAt l2 43) }

/-- Width-failure branch of `parse_td3`.  The Python checks dictionary there
has no `composite` key, and `checks.get("composite", False)` is `False`,
modelled as `composite := false`. -/
def td3Fail (l1 l2 : List Char) : MRZValidation :=
  { line1 := l1, line2 := l2, parsed := emptyMRZ
    checks := ⟨false, false, false, false⟩ }

/-- Success branch of `parse_td3` on normalized length-44 lines. -/
def td3Ok (l1 l2 : List Char) : MRZValidation :=
  { line1 := l1, line2 := l2, checks := td3Checks l2
    parsed :=
      { format := "TD3"
        documentType := (pyAt l1 0).toString
        issuingCountry := ((pySlice l1 2 5).filter (· ≠ '<')).asString
        surname := surnameOf (pySlice l1 5 44)
        givenNames := givenOf (pySlice l1 5 44)
        passportNumber := ((pySlice l2 0 9).filter (· ≠ '<')).asString
        nationality := ((pySlice l2 10 13).filter (· ≠ '<')).asString
        birthDate := (pySlice l2 13 19).asString
        sex := (pyAt l2 20).toString
        expiryDate := (pySlice l2 21 27).asString
        checksumOk := validCount3 (td3Checks l2) == 3
        confidence := (validCount3 (td3Checks l2) : ℚ) / 3 } }

/-- TD3 parse `MRZParser.parse_td3`: normalize both lines, verify width 44,
then compute the four checksum checks, decode the identity fields, and derive
`checksum_ok`/`confidence` from the three individual checks. -/
def parseTd3 (line1 line2 : List Char) : MRZValidation :=
  if (normalizeLine line1).length ≠ 44 ∨ (normalizeLine line2).length ≠ 44 then
    td3Fail (normalizeLine line1) (normalizeLine line2)
  else td3Ok (normalizeLine line1) (normalizeLine line2)

/-- Known-valid ICAO TD3 specimen, first line. -/
def sampleLine1 : List Char :=
  "P<UTOERIKSSON<<ANNA<MARIA<<<<<<<<<<<<<<<<<<<".data

/-- Known-valid ICAO TD3 specimen, second line. -/
def sampleLine2 : List Char :=
  "L898902C36UTO7408122F1204159ZE184226B<<<<<10".data

/-- Specification form of the weighted checksum sum: each character's value
times the (7, 3, 1) weight of its position. -/
def weightedSum (v : List Char) : Nat :=
  (v.enum.map fun p => charValue p.2 * weightAt (p.1 % 3)).sum

end OcrService

namespace BotMRZ

open OcrService (pySlice pyAt weightAt)

/-- Character value `_mrz_char_value` of `src/bot/mrz_parser.py`:
`ord(ch) - ord("A") + 10` for letters, digits to their value, else 0. -/
def mrzCharValue (c : Char) : Nat :=
  if c.isDigit then c.toNat - 48
  else if 'A' ≤ c ∧ c ≤ 'Z' then c.toNat - 65 + 10
  else 0

/-- Checksum `compute_mrz_checksum` with `_CHECKSUM_WEIGHTS = (7, 3, 1)`. -/
def computeMrzChecksum (v : List Char) : Nat :=
  (v.enum.foldl (fun acc p => acc + mrzCharValue p.2 * weightAt (p.1 % 3)) 0) % 10

/-- OCR-confusion table `NUM_MAP` (O/Q to 0, I/L to 1, B to 8, S to 5, G to 6). -/
def numMap (c : Char) : Char :=
  if c = 'O' then '0' else if c = 'Q' then '0' else if c = 'I' then '1'
  else if c = 'L' then '1' else if c = 'B' then '8' else if c = 'S' then '5'
  else if c = 'G' then '6' else c

/-- Normalization `normalize_for_numeric`: uppercase, then substitute via
`NUM_MAP`. -/
def normalizeForNumeric (v : List Char) : List Char :=
  (v.map Char.toUpper).map numMap

/-- Check-digit validation `validate_mrz_checksum`. -/
def validateMrzChecksum (v : List Char) (check : Char) : Bool :=
  check.isDigit && (computeMrzChecksum v == check.toNat - 48)

/-- Right padding `line + "<" * (44 - len(line))` applied by `parse_td3_mrz`
and `validate_td3_composite`; lines of length at least 44 are unchanged. -/
def padTo44 (l : List Char) : List Char :=
  l ++ List.replicate (44 - l.length) '<'

/-- Composite validation `validate_td3_composite`: the composite value is the
normalized document-number block `l2[0:10]`, normalized birth block
`l2[13:20]`, normalized expiry block `l2[21:28]` and the raw optional block
`l2[28:43]`, checked against `l2[43]`. -/
def validateTd3Composite (line2 : List Char) : Bool :=
  validateMrzChecksum
    (normalizeForNumeric (pySlice (padTo44 line2) 0 10) ++
      normalizeForNumeric (pySlice (padTo44 line2) 13 20) ++
      normalizeForNumeric (pySlice (padTo44 line2) 21 28) ++
      pySlice (padTo44 line2) 28 43)
    (pyAt (padTo44 line2) 43)

/-- Checks dictionary built by `parse_td3_mrz` (line 2 only; the first line
carries no check digit). -/
structure BotChecks where
  passportNumber : Bool
  birthDate : Bool
  expiryDate : Bool
  composite : Bool
deriving Repr, DecidableEq

/-- Number of passed checks among the four. -/
def passedCount (c : BotChecks) : Nat :=
  (if c.passportNumber then 1 else 0) + (if c.birthDate then 1 else 0) +
    (if c.expiryDate then 1 else 0) + (if c.composite then 1 else 0)

/-- Four checksum checks of `parse_td3_mrz`: the numeric sub-fields are
normalized with `normalize_for_numeric` before validation.  (On a padded line
every index used is in range, so the Python `try` body never raises.) -/
def parseTd3Checks (line2 : List Char) : BotChecks :=
  { passportNumber :=
      validateMrzChecksum (normalizeForNumeric (pySlice (padTo44 line2) 0 9))
        (pyAt (padTo44 line2) 9)
    birthDate :=
      validateMrzChecksum (normalizeForNumeric (pySlice (padTo44 line2) 13 19))
        (pyAt (padTo44 line2) 19)
    expiryDate :=
      validateMrzChecksum (normalizeForNumeric (pySlice (padTo44 line2) 21 27))
        (pyAt (padTo44 line2) 27)
    composite := validateTd3Composite (padTo44 line2) }

/-- Confidence `mrz_confidence_score` of `parse_td3_mrz`: `check_weights`
assigns 0.25 to each of the four checks and the score sums the weights of the
passed checks. -/
def mrzConfidenceScore (c : BotChecks) : ℚ :=
  (if c.passportNumber then (0.25 : ℚ) else 0) +
    (if c.birthDate then (0.25 : ℚ) else 0) +
    (if c.expiryDate then (0.25 : ℚ) else 0) +
    (if c.composite then (0.25 : ℚ) else 0)

/-- Aggregate flag `_mrz_checksum_ok = all(checks...)`. -/
def mrzChecksumOk (c : BotChecks) : Bool :=
  c.passportNumber && c.birthDate && c.expiryDate && c.composite

/-- Specification-side confidence for C2, following the spec text: a weighted
fraction of passed checks over all checks, with one weight per check. -/
def specWeightedScore (wp wb we wc : ℚ) (c : BotChecks) : ℚ :=
  ((if c.passportNumber then wp else 0) + (if c.birthDate then wb else 0) +
      (if c.expiryDate then we else 0) + (if c.composite then wc else 0)) /
    (wp + wb + we + wc)

/-- Valid TD3 specimen, second line. -/
def line2Valid : List Char :=
  "L898902C36UTO7408122F1204159ZE184226B<<<<<10".data

/-- Specimen with the document-number check digit corrupted (6 to 5). -/
def line2BadPassport : List Char :=
  "L898902C35UTO7408122F1204159ZE184226B<<<<<10".data

/-- Specimen with the composite check digit corrupted (0 to 1). -/
def line2BadComposite : List Char :=
  "L898902C36UTO7408122F1204159ZE184226B<<<<<11".data

end BotMRZ

namespace Pipeline

open OcrService (pySlice)

/-- Numeric value of a digit string, as `int(...)` reads it. -/
def digitsToNat (l : List Char) : Nat :=
  l.foldl (fun n c => n * 10 + (c.toNat - 48)) 0

/-- Digit character for a value below 10. -/
def digitChar (n : Nat) : Char :=
  Char.ofNat (48 + n)

/-- Four-digit zero-padded rendering `f"{year:04d}"`; the years produced by the
date decoder all lie in 1900-2099, where this agrees with Python's format. -/
def yearString (y : Nat) : String :=
  ⟨[digitChar (y / 1000 % 10), digitChar (y / 100 % 10),
    digitChar (y / 10 % 10), digitChar (y % 10)]⟩

/-- Date decoding `_yyMMdd_to_iso` of `src/ocr_service/pipeline.py`: a
six-digit `YYMMDD` value becomes ISO `YYYY-MM-DD`, the century chosen by the
fixed pivot 30 (`1900 + yy if yy > 30 else 2000 + yy`); anything that is not
six digits yields `""`. -/
def yyMMddToIso (value : List Char) : String :=
  if value.length ≠ 6 ∨ ¬ (value.all Char.isDigit) then ""
  else
    yearString
        (if digitsToNat (pySlice value 0 2) > 30 then
          1900 + digitsToNat (pySlice value 0 2)
        else 2000 + digitsToNat (pySlice value 0 2)) ++
      "-" ++ (pySlice value 2 4).asString ++ "-" ++ (pySlice value 4 6).asString

/-- Modelled from the spec: the same decoder but with the century pivot taken
from the current two-digit year — "if the parsed year is numerically greater
than the current year, assume prior century, else current century". -/
def yyMMddToIsoSpec (currentYY : Nat) (value : List Char) : String :=
  if value.length ≠ 6 ∨ ¬ (value.all Char.isDigit) then ""
  else
    yearString
        (if digitsToNat (pySlice value 0 2) > currentYY then
          1900 + digitsToNat (pySlice value 0 2)
        else 2000 + digitsToNat (pySlice value 0 2)) ++
      "-" ++ (pySlice value 2 4).asString ++ "-" ++ (pySlice value 4 6).asString

end Pipeline

namespace Engines

/-- Job status values of `ocr_service.models.JobStatus`. -/
inductive JobStatus where
  | submitted
  | processing
  | autoAccepted
  | fallbackUsed
  | manualReview
  | duplicateDetected
  | failed
deriving Repr, DecidableEq

/-- Decision record of `ocr_service.engines.Decision`. -/
structure Decision where
  status : JobStatus
  useFallback : Bool
deriving Repr, DecidableEq

/-- Configuration fields of `OCRSettings` (src/ocr_service/settings.py) that
drive the decision engine and the orchestrator. -/
structure OCRSettingsCfg where
  localAttempts : Nat
  totalTimeout : ℚ
  fallbackThreshold : ℚ
  autoAccept : ℚ
  manualAfterSecondCycle : Bool
  slaBreachFlag : Bool

/-- Fields of the `MRZData` record that drive job control flow: the decision
engine reads `confidence` and `checksum_ok`, the orchestrator additionally
reads `passport_hash` for duplicate handling. -/
structure MRZRecordE where
  passportHash : String
  confidence : ℚ
  checksumOk : Bool

/-- Decision function `SLAEngine.decide`: auto-accept on confident valid
checksums; otherwise manual review once `cycle_count >= 2` when
`manual_after_second_cycle` is enabled, else keep processing with fallback
permitted. -/
def decide (cfg : OCRSettingsCfg) (mrz : MRZRecordE) (cycleCount : Nat) : Decision :=
  if cfg.autoAccept ≤ mrz.confidence ∧ mrz.checksumOk = true then
    ⟨.autoAccepted, false⟩
  else if cfg.fallbackThreshold ≤ mrz.confidence then
    if 2 ≤ cycleCount ∧ cfg.manualAfterSecondCycle = true then ⟨.manualReview, false⟩
    else ⟨.processing, true⟩
  else if 2 ≤ cycleCount ∧ cfg.manualAfterSecondCycle = true then ⟨.manualReview, false⟩
  else ⟨.processing, true⟩

/-- Default-valued settings of `OCRSettings` (env vars unset). -/
def defaultCfg : OCRSettingsCfg :=
  { localAttempts := 2, totalTimeout := 8, fallbackThreshold := 0.55
    autoAccept := 0.80, manualAfterSecondCycle := true, slaBreachFlag := true }

end Engines

namespace Orchestrator

open Engines

/-- Pipeline payload fields consumed by `OcrOrchestrator.process_job` and
`_mrz_from_pipeline` (src/ocr_service/orchestrator.py): the document-identity
hash from `fields`, the confidence score, the warnings list and the
auto-accept flag.  The hash is produced by the upstream pipeline; the
orchestrator only compares and stores it. -/
structure PipelinePayload where
  passportHash : String
  confidenceScore : ℚ
  warnings : List String
  autoAccepted : Bool

/-- Conversion `_mrz_from_pipeline`, restricted to the record fields that
drive job control flow: `checksum_ok` is true iff `checksum_failed` is absent
from the payload warnings. -/
def mrzFromPipeline (p : PipelinePayload) : MRZRecordE :=
  { passportHash := p.passportHash
    confidence := p.confidenceScore
    checksumOk := !(p.warnings.contains "checksum_failed") }

/-- Process-wide duplicate index `JobRepository.mrz_index`; dict insertion is
modelled by cons (the index is only read through key membership, so overwrite
order is immaterial). -/
abbrev MrzIndex := List (String × String)

/-- Lookup `JobRepository.check_duplicate`. -/
def checkDuplicate (idx : MrzIndex) (h : String) : Bool :=
  idx.any fun e => e.1 == h

/-- Registration `JobRepository.register_passport_hash`. -/
def registerPassportHash (idx : MrzIndex) (h jobId : String) : MrzIndex :=
  (h, jobId) :: idx

/-- Audit events appended by `process_job`, with the details each carries
(wall-clock timestamps of `add_audit` omitted: external clock). -/
inductive AuditEvent where
  | processingStarted
  | localAttempt (cycleCount : Nat) (decision : JobStatus)
  | duplicateDetected (passportHash : String)
  | failed
  | slaBreach (elapsed : ℚ)

/-- Outcome of one `process_job` run: terminal status, updated duplicate
index, the audit events appended in order, whether `_notify_crm` was called,
and the final cycle count. -/
structure JobOutcome where
  status : JobStatus
  mrzIndex : MrzIndex
  audit : List AuditEvent
  crmNotified : Bool
  cycleCount : Nat

/-- Local-attempt loop of `process_job` (`for _ in range(local_attempts)`):
each iteration increments the cycle counter, runs the pipeline (payload `i` of
the stream), appends a `local_attempt` audit entry, and returns early on a
duplicate-index hit, an auto-accepted payload (registering a non-empty hash),
or a manual-review decision — each early return notifying the CRM connector;
exhaustion falls through to status `failed` with a `failed` audit entry and no
CRM notification. -/
def runAttempts (cfg : OCRSettingsCfg) (payloads : Nat → PipelinePayload)
    (jobId : String) : Nat → Nat → Nat → MrzIndex → JobOutcome
  | 0, _, cycle, idx => ⟨.failed, idx, [.failed], false, cycle⟩
  | remaining + 1, i, cycle, idx =>
    let cycle' := cycle + 1
    let p := payloads i
    let decision := decide cfg (mrzFromPipeline p) cycle'
    let attempt := AuditEvent.localAttempt cycle' decision.status
    if p.passportHash ≠ "" ∧ checkDuplicate idx p.passportHash = true then
      ⟨.duplicateDetected, idx, [attempt, .duplicateDetected p.passportHash],
        true, cycle'⟩
    else if p.autoAccepted = true then
      ⟨.autoAccepted,
        if p.passportHash ≠ "" then registerPassportHash idx p.passportHash jobId
        else idx,
        [attempt], true, cycle'⟩
    else if decision.status = .manualReview then
      ⟨.manualReview, idx, [attempt], true, cycle'⟩
    else
      let rest := runAttempts cfg payloads jobId remaining (i + 1) cycle' idx
      ⟨rest.status, rest.mrzIndex, attempt :: rest.audit, rest.crmNotified,
        rest.cycleCount⟩

/-- Whole `process_job` run.  The wall clock is read once at entry and once
after the loop; `elapsed` is their difference.  Elapsed time is consulted only
on the fall-through (`failed`) path, where an `sla_breach` audit entry is
appended when the flag is set and the budget was exceeded — no attempt is
gated on it. -/
def processJob (cfg : OCRSettingsCfg) (payloads : Nat → PipelinePayload)
    (jobId : String) (idx : MrzIndex) (elapsed : ℚ) : JobOutcome :=
  let r := runAttempts cfg payloads jobId cfg.localAttempts 0 0 idx
  if r.status = .failed ∧ cfg.slaBreachFlag = true ∧ cfg.totalTimeout < elapsed then
    { r with audit := .processingStarted :: (r.audit ++ [.slaBreach elapsed]) }
  else
    { r with audit := .processingStarted :: r.audit }

/-- Number of local attempts started, read off the audit trail. -/
def numLocalAttempts (o : JobOutcome) : Nat :=
  o.audit.countP fun e =>
    match e with
    | .localAttempt _ _ => true
    | _ => false

/-- Payload stream of a persistently low-confidence submission. -/
def lowStream : Nat → PipelinePayload :=
  fun _ => ⟨"", 0, [], false⟩

/-- Default settings with `manual_after_second_cycle` disabled, so the local
loop runs to exhaustion. -/
def cfgNoManual : OCRSettingsCfg :=
  { localAttempts := 2, totalTimeout := 8, fallbackThreshold := 0.55
    autoAccept := 0.80, manualAfterSecondCycle := false, slaBreachFlag := true }

end Orchestrator

namespace Checklist

/-- Settings of `ChecklistEngineSettings` (src/checklist_engine/engine.py);
defaults: threshold 0.80, grace 0 days, override allowed. -/
structure EngineSettings where
  confidenceThreshold : ℚ
  expiryGraceDays : Int
  allowManualOverride : Bool

/-- Submitted document `checklist_engine.models.ResidentDocument`.  The
`extracted_fields` dict is modelled by the two keys the engine consults:
`mrz_checksum_valid` (with its dict-get default `True` resolved at this
boundary) and `expiry_date` (an ISO date, modelled as an absolute day count,
absent when the key is missing or empty). -/
structure ResidentDocument where
  residentId : String
  docType : String
  countryCode : String
  passportHash : String
  mrzHash : String
  mrzChecksumValid : Bool
  expiryDate : Option Int
  ocrConfidence : ℚ
  verifiedFlag : Bool

/-- Checklist item `checklist_engine.models.ChecklistItem`. -/
structure ChecklistItem where
  code : String
  description : String
  required : Bool
  satisfied : Bool
  satisfiedByDocType : Option String
  blocking : Bool
deriving Repr, DecidableEq

/-- Decision-trace entry `DecisionTraceEntry` (rule name, input snapshot as
key-value pairs, decision); the `datetime.now` timestamp is an external clock
value and is omitted. -/
structure TraceEntry where
  rule : String
  input : List (String × String)
  decision : String
deriving Repr, DecidableEq

/-- Override request `checklist_engine.models.OverrideRequest`: pydantic
enforces `override_reason: Field(min_length=3)` at construction (strict model,
unknown fields forbidden), carried here as an invariant. -/
structure OverrideRequest where
  managerRole : String
  overrideReason : String
  reasonMinLen : 3 ≤ overrideReason.length

/-- Evaluation result `checklist_engine.models.ChecklistResult`. -/
structure ChecklistResult where
  allRequiredSatisfied : Bool
  blockingItems : List ChecklistItem
  satisfiedItems : List ChecklistItem
  missingItems : List ChecklistItem
  managerOverrideUsed : Bool
  decisionTrace : List TraceEntry

/-- Distinct named error `DuplicateDocumentError`, carrying the first
duplicated hash. -/
inductive ChecklistError where
  | duplicateDocument (passportHash : String)
deriving Repr, DecidableEq

/-- Count of occurrences of a hash, as `Counter` counts it. -/
def countOcc (xs : List String) (h : String) : Nat :=
  (xs.filter (· == h)).length

/-- Distinct elements in first-occurrence order, as `Counter` (an ordered
dict) keys them. -/
def dedupAux (seen : List String) : List String → List String
  | [] => []
  | h :: t =>
    if seen.contains h then dedupAux seen t
    else h :: dedupAux (h :: seen) t

/-- Keys of `Counter(...)` in insertion order. -/
def firstOccurrences (xs : List String) : List String :=
  dedupAux [] xs

/-- Duplicate hash list `[h for h, c in Counter(...).items() if c > 1]`. -/
def dupHashes (xs : List String) : List String :=
  (firstOccurrences xs).filter fun h => decide (1 < countOcc xs h)

/-- Document lookup `docs_by_type = {doc.doc_type: doc for doc in docs}`:
dict-comprehension assignment means the last document of a type wins. -/
def docsByType (docs : List ResidentDocument) (t : String) :
    Option ResidentDocument :=
  (docs.filter fun d => d.docType == t).getLast?

/-- Item-code decoding `item.code.split("::", maxsplit=1)[1]`: the text after
the first `::`.  (For a code with no `::` Python would raise `IndexError`;
engine-built codes always have the `doc::` prefix, and this total model
returns the empty string there.) -/
def afterDoubleColon : List Char → List Char
  | [] => []
  | ':' :: ':' :: rest => rest
  | _ :: rest => afterDoubleColon rest

/-- Document type addressed by an item code. -/
def docTypeOfCode (code : String) : String :=
  (afterDoubleColon code.data).asString

/-- Expiry test `_is_expired`: false without an `expiry_date` field, else
whether the expiry date plus the grace period is before today. -/
def isExpired (s : EngineSettings) (today : Int) (d : ResidentDocument) : Bool :=
  match d.expiryDate with
  | none => false
  | some exp => decide (exp + s.expiryGraceDays < today)

/-- Document validation `_validate_document`: low confidence without manual
verification, then checksum failure, then expiry, in that order. -/
def validateDocument (s : EngineSettings) (today : Int) (d : ResidentDocument) :
    Option String :=
  if d.ocrConfidence < s.confidenceThreshold ∧ d.verifiedFlag = false then
    some "low_ocr_no_manual_verification"
  else if d.mrzChecksumValid = false then some "mrz_checksum_fail"
  else if isExpired s today d = true then some "doc_expired"
  else none

/-- Accumulated item partitions and trace of the evaluation loop. -/
structure ItemAcc where
  blocking : List ChecklistItem
  satisfied : List ChecklistItem
  missing : List ChecklistItem
  trace : List TraceEntry

/-- One iteration of the item loop of `evaluate_checklist`: the item is
deep-copied (`model_copy(deep=True)`) and only its satisfaction state is set;
a missing required document blocks, a validation failure blocks (the item
lands in both the missing and blocking lists), otherwise the item is
satisfied, recording the satisfying document type. -/
def processItem (s : EngineSettings) (today : Int)
    (docs : List ResidentDocument) (item : ChecklistItem) : ItemAcc :=
  match docsByType docs (docTypeOfCode item.code) with
  | none =>
    let mi := { item with blocking := item.required }
    { blocking := if mi.blocking then [mi] else []
      satisfied := []
      missing := [mi]
      trace := [⟨"required_doc_present", [("doc_type", docTypeOfCode item.code)],
        "missing"⟩] }
  | some doc =>
    match validateDocument s today doc with
    | some err =>
      let mi := { item with blocking := true, satisfied := false }
      { blocking := [mi]
        satisfied := []
        missing := [mi]
        trace := [⟨err, [("doc_type", docTypeOfCode item.code),
          ("passport_hash", doc.passportHash)], "blocking"⟩] }
    | none =>
      let si := { item with satisfied := true
                            satisfiedByDocType := some doc.docType }
      { blocking := []
        satisfied := [si]
        missing := []
        trace := [⟨"doc_satisfied", [("doc_type", docTypeOfCode item.code)],
          "satisfied"⟩] }

/-- Item loop of `evaluate_checklist`, accumulating the partitions and the
trace in list order. -/
def processItems (s : EngineSettings) (today : Int)
    (docs : List ResidentDocument) : List ChecklistItem → ItemAcc
  | [] => ⟨[], [], [], []⟩
  | item :: rest =>
    let cur := processItem s today docs item
    let acc := processItems s today docs rest
    ⟨cur.blocking ++ acc.blocking, cur.satisfied ++ acc.satisfied,
      cur.missing ++ acc.missing, cur.trace ++ acc.trace⟩

/-- Trace entry recorded for an approved override. -/
def overrideApprovedEntry (o : OverrideRequest) : TraceEntry :=
  ⟨"override_approved",
    [("manager_role", o.managerRole), ("reason", o.overrideReason)], "allow"⟩

/-- Trace entry recorded for an override denied by role. -/
def overrideDeniedEntry (o : OverrideRequest) : TraceEntry :=
  ⟨"override_denied_role", [("manager_role", o.managerRole)], "blocking"⟩

/-- Override section of `evaluate_checklist`: it runs only when blocking items
exist, a request was supplied and the settings allow manual override; a
non-supervisor role is recorded as denied and changes nothing, a supervisor
flips the aggregate outcome and is recorded as approved.  Returns the final
aggregate flag, the override-used flag and the final trace. -/
def applyOverride (s : EngineSettings) (blocking : List ChecklistItem)
    (allReq : Bool) (trace : List TraceEntry) (ov : Option OverrideRequest) :
    Bool × Bool × List TraceEntry :=
  match ov with
  | none => (allReq, false, trace)
  | some o =>
    if blocking ≠ [] ∧ s.allowManualOverride = true then
      if o.managerRole ≠ "supervisor" then
        (allReq, false, trace ++ [overrideDeniedEntry o])
      else (true, true, trace ++ [overrideApprovedEntry o])
    else (allReq, false, trace)

/-- Body of `evaluate_checklist` after the duplicate guard. -/
def evaluateCore (s : EngineSettings) (today : Int)
    (docs : List ResidentDocument) (checklist : List ChecklistItem)
    (ov : Option OverrideRequest) : ChecklistResult :=
  let acc := processItems s today docs checklist
  let res := applyOverride s acc.blocking acc.blocking.isEmpty acc.trace ov
  { allRequiredSatisfied := res.1
    blockingItems := acc.blocking
    satisfiedItems := acc.satisfied
    missingItems := acc.missing
    managerOverrideUsed := res.2.1
    decisionTrace := res.2.2 }

/-- Whole `evaluate_checklist`: the duplicate guard runs first and raises
`DuplicateDocumentError` with the first duplicated hash before any result is
built (the trace entry appended just before the raise dies with the local
variable). -/
def evaluateChecklist (s : EngineSettings) (today : Int)
    (docs : List ResidentDocument) (checklist : List ChecklistItem)
    (ov : Option OverrideRequest) : Except ChecklistError ChecklistResult :=
  match dupHashes (docs.map (·.passportHash)) with
  | [] => .ok (evaluateCore s today docs checklist ov)
  | h :: _ => .error (.duplicateDocument h)

end Checklist

namespace Rules

/-- Document rule contract `DocumentRule` (src/checklist_engine/rules.py): its
single method `build_required_docs` maps a nationality to a document list, so
a rule is modelled as that function.  `StaticRule docs` is `fun _ => docs`. -/
abbrev DocumentRule := String → List String

/-- Named errors of `NationalityRuleMissing`: an unregistered named rule, or
no matching rule and no fallback. -/
inductive RuleError where
  | ruleNotRegistered (name : String)
  | missingNationality (nationality : String)
deriving Repr, DecidableEq

/-- Registry `NationalityRuleRegistry` with its default country sets;
`_named_rules` is a dict keyed by rule name (last registration wins) and
`_fallback_rule` an optional rule. -/
structure Registry where
  cisCountries : List String
  visaRequiredCountries : List String
  idCardCountries : List String
  namedRules : List (String × DocumentRule)
  fallbackRule : Option DocumentRule

/-- Dict lookup in `_named_rules` (assignment overwrite means the last entry
for a name wins). -/
def lookupRule (rules : List (String × DocumentRule)) (name : String) :
    Option DocumentRule :=
  ((rules.filter fun r => r.1 == name).getLast?).map (·.2)

/-- Rule fetch `_require_rule`: raises `NationalityRuleMissing` when the name
is not registered — the fallback is not consulted here. -/
def requireRule (r : Registry) (name : String) :
    Except RuleError DocumentRule :=
  match lookupRule r.namedRules name with
  | some rule => .ok rule
  | none => .error (.ruleNotRegistered name)

/-- Python `str.strip()` on the character list (drop whitespace at both
ends). -/
def pyStrip (l : List Char) : List Char :=
  ((l.dropWhile Char.isWhitespace).reverse.dropWhile Char.isWhitespace).reverse

/-- Normalization `nationality.strip().upper()`. -/
def pyStripUpper (s : String) : String :=
  ((pyStrip s.data).map Char.toUpper).asString

/-- Resolution `resolve_required_docs`: the CIS, national-ID and visa-required
sets are consulted in order; any other code of normalized length 2 or 3 goes
to the named `foreign_passport` rule via `_require_rule`; only codes outside
that form reach the fallback rule; with no fallback registered a
`NationalityRuleMissing` error names the nationality. -/
def resolveRequiredDocs (r : Registry) (nationality : String) :
    Except RuleError (List String) :=
  if r.cisCountries.contains (pyStripUpper nationality) then
    (requireRule r "cis_passport").map fun f => f (pyStripUpper nationality)
  else if r.idCardCountries.contains (pyStripUpper nationality) then
    (requireRule r "id_card").map fun f => f (pyStripUpper nationality)
  else if r.visaRequiredCountries.contains (pyStripUpper nationality) then
    (requireRule r "visa_required").map fun f => f (pyStripUpper nationality)
  else if (pyStripUpper nationality).length = 2 ∨
      (pyStripUpper nationality).length = 3 then
    (requireRule r "foreign_passport").map fun f => f (pyStripUpper nationality)
  else
    match r.fallbackRule with
    | some f => .ok (f (pyStripUpper nationality))
    | none => .error (.missingNationality nationality)

/-- Default country sets of the registry. -/
def defaultRegistrySets : Registry :=
  { cisCountries := ["KZ", "RU", "BY", "KG", "UZ", "TJ", "AM", "AZ", "MD"]
    visaRequiredCountries := ["IN", "PK", "NG", "EG"]
    idCardCountries := ["DE", "FR", "ES", "IT", "PL"]
    namedRules := []
    fallbackRule := none }

/-- Registry with no named rules but a registered fallback, as
`register_fallback(StaticRule(["fallback_doc"]))` alone would build. -/
def registryFallbackOnly : Registry :=
  { defaultRegistrySets with fallbackRule := some fun _ => ["fallback_doc"] }

end Rules

/-- Concrete inputs for the C7 witness: an engine allowing overrides, one
required item, no documents, and a `manager`-role request. -/
def c7Settings : Checklist.EngineSettings := ⟨0.8, 0, true⟩

/-- Required passport item of the C7 witness checklist. -/
def c7Item : Checklist.ChecklistItem :=
  ⟨"doc::national_passport", "Resident must provide national_passport",
    true, false, none, false⟩

/-- Non-privileged override request of the C7 witness. -/
def c7Request : Checklist.OverrideRequest :=
  ⟨"manager", "checked manually", by decide⟩

/-- Supervisor override request for the C10 witness. -/
def c10Request : Checklist.OverrideRequest :=
  ⟨"supervisor", "checked manually", by decide⟩

namespace OcrService

theorem foldl_add_eq_sum {α : Type} (f : α → Nat) (l : List α) (n : Nat) :
    l.foldl (fun acc x => acc + f x) n = n + (l.map f).sum := by
  induction l generalizing n with
  | nil => simp
  | cons a t ih => simp [ih, Nat.add_assoc]

theorem checksum_eq_weightedSum (v : List Char) :
    checksum v = weightedSum v % 10 := by
  unfold checksum weightedSum
  rw [foldl_add_eq_sum (fun p => charValue p.2 * weightAt (p.1 % 3)) v.enum 0]
  simp

theorem upper_not_digit {c : Char} (h : 'A' ≤ c) : c.isDigit = false := by
  have h65 : (65 : Nat) ≤ c.toNat := by
    have h' := h
    simp only [Char.le_def, UInt32.le_def, BitVec.le_def] at h'
    exact h'
  have hn : ¬ (c.val ≤ 57) := by
    simp only [UInt32.le_def, BitVec.le_def]
    change ¬ (c.toNat ≤ 57)
    omega
  simp [Char.isDigit, hn]

theorem parseTd3_confidence (line1 line2 : List Char) :
    (parseTd3 line1 line2).parsed.confidence =
      (validCount3 (parseTd3 line1 line2).checks : ℚ) / 3 := by
  unfold parseTd3
  split
  · simp [td3Fail, emptyMRZ, validCount3]
  · rfl

/-- C1: the MRZ check-digit function maps digits to their value, letters A-Z
to 10-35 and the filler `<` to 0; the checksum of a field is its
(7, 3, 1)-cycle weighted sum of character values taken mod 10, and a field
validates iff that value equals the trailing check digit; parsing the
known-valid TD3 sample lines yields surname `ERIKSSON`, given names
`ANNA MARIA`, nationality `UTO`, all four checksum checks true and
confidence 1.0. -/
theorem C1_checksum_and_sample :
    (∀ c : Char, c.isDigit = true → charValue c = c.toNat - 48) ∧
    (∀ c : Char, 'A' ≤ c → c ≤ 'Z' → charValue c = (c.toNat - 65) + 10) ∧
    charValue '<' = 0 ∧
    (∀ v : List Char, checksum v = weightedSum v % 10) ∧
    (∀ (v : List Char) (d : Char), d.isDigit = true →
      (validate v d = true ↔ checksum v = d.toNat - 48)) ∧
    (parseTd3 sampleLine1 sampleLine2).parsed.surname = "ERIKSSON" ∧
    (parseTd3 sampleLine1 sampleLine2).parsed.givenNames = "ANNA MARIA" ∧
    (parseTd3 sampleLine1 sampleLine2).parsed.nationality = "UTO" ∧
    (parseTd3 sampleLine1 sampleLine2).checks = ⟨true, true, true, true⟩ ∧
    (parseTd3 sampleLine1 sampleLine2).parsed.confidence = 1 := by
  refine ⟨?_, ?_, by decide, checksum_eq_weightedSum, ?_, by decide, by decide,
    by decide, by decide, ?_⟩
  · intro c h
    simp [charValue, h]
  · intro c h1 h2
    have hd := upper_not_digit h1
    have h65 : (65 : Nat) ≤ c.toNat := by
      have h' := h1
      simp only [Char.le_def, UInt32.le_def, BitVec.le_def] at h'
      exact h'
    unfold charValue
    rw [hd]
    simp only [Bool.false_eq_true, if_false]
    rw [if_pos ⟨h1, h2⟩]
    omega
  · intro v d hd
    simp [validate, hd]
  · rw [parseTd3_confidence]
    have hc : (parseTd3 sampleLine1 sampleLine2).checks = ⟨true, true, true, true⟩ := by
      decide
    rw [hc]
    norm_num [validCount3]

/-- Witness for C1 at concrete characters and a concrete birth-date field. -/
theorem C1_checksum_and_sample_witness :
    charValue '7' = '7'.toNat - 48 ∧ charValue 'Z' = ('Z'.toNat - 65) + 10 ∧
    (validate "740812".data '2' = true ↔ checksum "740812".data = '2'.toNat - 48) :=
  ⟨C1_checksum_and_sample.1 '7' (by decide),
   C1_checksum_and_sample.2.1 'Z' (by decide) (by decide),
   C1_checksum_and_sample.2.2.2.2.1 "740812".data '2' (by decide)⟩

end OcrService

/-- C2 counterexample: no assignment of positive per-check weights in which
the composite check outweighs each of the three individual checks reproduces
the code's confidence score — the code lowers the score by the same amount for
a failed composite check (specimen with corrupted composite digit, score 0.75)
as for a failed document-number check, forcing the composite weight to equal
the document-number weight. -/
theorem C2_counterexample :
    ¬ ∃ wp wb we wc : ℚ, 0 < wp ∧ 0 < wb ∧ 0 < we ∧ 0 < wc ∧
      wp < wc ∧ wb < wc ∧ we < wc ∧
      ∀ line2 : List Char,
        BotMRZ.mrzConfidenceScore (BotMRZ.parseTd3Checks line2) =
          BotMRZ.specWeightedScore wp wb we wc (BotMRZ.parseTd3Checks line2) := by
  rintro ⟨wp, wb, we, wc, hp, hb, he, hc, hpc, _, _, hall⟩
  have h1 := hall BotMRZ.line2BadComposite
  have h2 := hall BotMRZ.line2BadPassport
  rw [show BotMRZ.parseTd3Checks BotMRZ.line2BadComposite =
      ⟨true, true, true, false⟩ from by decide] at h1
  rw [show BotMRZ.parseTd3Checks BotMRZ.line2BadPassport =
      ⟨false, true, true, false⟩ from by decide] at h2
  have hT : wp + wb + we + wc ≠ 0 := by positivity
  norm_num [BotMRZ.mrzConfidenceScore, BotMRZ.specWeightedScore] at h1 h2
  rw [eq_div_iff hT] at h1 h2
  linarith

/-- C2 amended: each of the four checks carries the same weight 0.25, so the
bot-parser confidence is the plain fraction of passed checks over four (the
composite check does not outweigh the others), while the service-side
MRZRecord confidence counts only the three individual checks over three;
corrupting only the document-number check digit of the valid specimen fails
exactly the document-number and composite checks and lowers the confidence by
their combined weight 0.5. -/
theorem C2_equal_weights :
    (∀ line2 : List Char,
        BotMRZ.mrzConfidenceScore (BotMRZ.parseTd3Checks line2) =
          (BotMRZ.passedCount (BotMRZ.parseTd3Checks line2) : ℚ) / 4) ∧
    (∀ l1 l2 : List Char,
        (OcrService.parseTd3 l1 l2).parsed.confidence =
          (OcrService.validCount3 (OcrService.parseTd3 l1 l2).checks : ℚ) / 3) ∧
    BotMRZ.parseTd3Checks BotMRZ.line2Valid = ⟨true, true, true, true⟩ ∧
    BotMRZ.mrzConfidenceScore (BotMRZ.parseTd3Checks BotMRZ.line2Valid) = 1 ∧
    BotMRZ.parseTd3Checks BotMRZ.line2BadPassport = ⟨false, true, true, false⟩ ∧
    BotMRZ.mrzConfidenceScore (BotMRZ.parseTd3Checks BotMRZ.line2BadPassport) =
      1 - (0.25 + 0.25) := by
  refine ⟨?_, OcrService.parseTd3_confidence, by decide, ?_, by decide, ?_⟩
  · intro line2
    generalize BotMRZ.parseTd3Checks line2 = c
    rcases c with ⟨p, b, e, k⟩
    cases p <;> cases b <;> cases e <;> cases k <;>
      norm_num [BotMRZ.mrzConfidenceScore, BotMRZ.passedCount]
  · rw [show BotMRZ.parseTd3Checks BotMRZ.line2Valid =
        ⟨true, true, true, true⟩ from by decide]
    norm_num [BotMRZ.mrzConfidenceScore]
  · rw [show BotMRZ.parseTd3Checks BotMRZ.line2BadPassport =
        ⟨false, true, true, false⟩ from by decide]
    norm_num [BotMRZ.mrzConfidenceScore]

/-- C5 counterexample: with the current two-digit year 26 (the year 2026), the
spec's comparison-to-current-year rule decodes `280101` to 1928-01-01, but the
code decodes it to 2028-01-01 — the code's pivot is the constant 30, not the
current year. -/
theorem C5_counterexample :
    Pipeline.yyMMddToIsoSpec 26 "280101".data = "1928-01-01" ∧
    Pipeline.yyMMddToIso "280101".data = "2028-01-01" ∧
    Pipeline.yyMMddToIsoSpec 26 "280101".data ≠ Pipeline.yyMMddToIso "280101".data := by
  refine ⟨by decide, by decide, by decide⟩

/-- C5 amended: the century of a two-digit MRZ year is resolved against the
fixed pivot 30 — the decoder coincides with the spec's comparison rule only
with the "current year" hard-coded as 30: years above 30 fall in the 1900s,
years up to 30 in the 2000s. -/
theorem C5_fixed_pivot :
    (∀ value : List Char,
        Pipeline.yyMMddToIsoSpec 30 value = Pipeline.yyMMddToIso value) ∧
    Pipeline.yyMMddToIso "310101".data = "1931-01-01" ∧
    Pipeline.yyMMddToIso "300101".data = "2030-01-01" ∧
    Pipeline.yyMMddToIso "740812".data = "1974-08-12" ∧
    Pipeline.yyMMddToIso "120415".data = "2012-04-15" := by
  exact ⟨fun _ => rfl, by decide, by decide, by decide, by decide⟩

namespace Engines

theorem decide_manualReview_iff (cfg : OCRSettingsCfg) (mrz : MRZRecordE)
    (n : Nat) (hm : cfg.manualAfterSecondCycle = true) :
    (decide cfg mrz n).status = .manualReview ↔
      ¬ (cfg.autoAccept ≤ mrz.confidence ∧ mrz.checksumOk = true) ∧ 2 ≤ n := by
  unfold decide
  by_cases h1 : cfg.autoAccept ≤ mrz.confidence ∧ mrz.checksumOk = true
  · simp [h1]
  · by_cases h2 : cfg.fallbackThreshold ≤ mrz.confidence
    · by_cases h3 : 2 ≤ n <;> simp [h1, h2, h3, hm]
    · by_cases h3 : 2 ≤ n <;> simp [h1, h2, h3, hm]

end Engines

/-- C9: with manual-review-after-second-cycle enabled and the MRZ inputs
fixed, the decision is monotone in the cycle count — once a cycle yields
manual review, every later cycle does too (no fall back to plain
soft-fail/processing) — and manual review is never produced below cycle 2. -/
theorem C9_monotonic_escalation (cfg : Engines.OCRSettingsCfg)
    (mrz : Engines.MRZRecordE) (hm : cfg.manualAfterSecondCycle = true) :
    (∀ n m : Nat, n ≤ m →
      (Engines.decide cfg mrz n).status = .manualReview →
      (Engines.decide cfg mrz m).status = .manualReview) ∧
    (∀ n : Nat, n < 2 → (Engines.decide cfg mrz n).status ≠ .manualReview) := by
  constructor
  · intro n m hnm hn
    rw [Engines.decide_manualReview_iff cfg mrz n hm] at hn
    rw [Engines.decide_manualReview_iff cfg mrz m hm]
    exact ⟨hn.1, le_trans hn.2 hnm⟩
  · intro n hn hman
    rw [Engines.decide_manualReview_iff cfg mrz n hm] at hman
    omega

/-- Witness for C9 at the default settings and a zero-confidence record. -/
theorem C9_monotonic_escalation_witness :
    (Engines.decide Engines.defaultCfg ⟨"", 0, false⟩ 3).status = .manualReview ∧
    (Engines.decide Engines.defaultCfg ⟨"", 0, false⟩ 1).status ≠ .manualReview := by
  constructor
  · exact (C9_monotonic_escalation Engines.defaultCfg ⟨"", 0, false⟩ rfl).1 2 3
      (by norm_num)
      (by rw [Engines.decide_manualReview_iff _ _ _ rfl]
          refine ⟨?_, by norm_num⟩
          simp only [Engines.defaultCfg]
          norm_num)
  · exact (C9_monotonic_escalation Engines.defaultCfg ⟨"", 0, false⟩ rfl).2 1 (by norm_num)

namespace Orchestrator

theorem runAttempts_index_unchanged (cfg : Engines.OCRSettingsCfg)
    (p : Nat → PipelinePayload) (j : String) :
    ∀ (r i c : Nat) (idx : MrzIndex),
      (runAttempts cfg p j r i c idx).status ≠ .autoAccepted →
      (runAttempts cfg p j r i c idx).mrzIndex = idx := by
  intro r
  induction r with
  | zero => intro i c idx _; rfl
  | succ n ih =>
    intro i c idx h
    simp only [runAttempts] at h ⊢
    by_cases h1 : (p i).passportHash ≠ "" ∧ checkDuplicate idx (p i).passportHash = true
    · rw [if_pos h1] at h ⊢
    · rw [if_neg h1] at h ⊢
      by_cases h2 : (p i).autoAccepted = true
      · rw [if_pos h2] at h
        exact absurd rfl h
      · rw [if_neg h2] at h ⊢
        by_cases h3 :
            (Engines.decide cfg (mrzFromPipeline (p i)) (c + 1)).status =
              .manualReview
        · rw [if_pos h3] at h ⊢
        · rw [if_neg h3] at h ⊢
          exact ih (i + 1) (c + 1) idx h

theorem runAttempts_registers (cfg : Engines.OCRSettingsCfg)
    (p : Nat → PipelinePayload) (j h : String) (hne : h ≠ "")
    (hp : ∀ i, (p i).passportHash = h) :
    ∀ (r i c : Nat) (idx : MrzIndex),
      (runAttempts cfg p j r i c idx).status = .autoAccepted →
      (runAttempts cfg p j r i c idx).mrzIndex = registerPassportHash idx h j := by
  intro r
  induction r with
  | zero => intro i c idx hst; exact absurd hst (by simp [runAttempts])
  | succ n ih =>
    intro i c idx hst
    simp only [runAttempts] at hst ⊢
    by_cases h1 : (p i).passportHash ≠ "" ∧ checkDuplicate idx (p i).passportHash = true
    · rw [if_pos h1] at hst
      exact absurd hst (by simp)
    · rw [if_neg h1] at hst ⊢
      by_cases h2 : (p i).autoAccepted = true
      · rw [if_pos h2] at hst ⊢
        simp only
        rw [hp i, if_pos hne]
      · rw [if_neg h2] at hst ⊢
        by_cases h3 :
            (Engines.decide cfg (mrzFromPipeline (p i)) (c + 1)).status =
              .manualReview
        · rw [if_pos h3] at hst
          exact absurd hst (by simp)
        · rw [if_neg h3] at hst ⊢
          exact ih (i + 1) (c + 1) idx hst

theorem processJob_components (cfg : Engines.OCRSettingsCfg)
    (p : Nat → PipelinePayload) (j : String) (idx : MrzIndex) (e : ℚ) :
    (processJob cfg p j idx e).status =
        (runAttempts cfg p j cfg.localAttempts 0 0 idx).status ∧
      (processJob cfg p j idx e).mrzIndex =
        (runAttempts cfg p j cfg.localAttempts 0 0 idx).mrzIndex ∧
      (processJob cfg p j idx e).crmNotified =
        (runAttempts cfg p j cfg.localAttempts 0 0 idx).crmNotified := by
  simp only [processJob]
  split <;> exact ⟨rfl, rfl, rfl⟩

theorem processJob_duplicate_first (cfg : Engines.OCRSettingsCfg)
    (p : Nat → PipelinePayload) (j : String) (idx : MrzIndex) (e : ℚ)
    (hr : 1 ≤ cfg.localAttempts) (hne : (p 0).passportHash ≠ "")
    (hdup : checkDuplicate idx (p 0).passportHash = true) :
    (processJob cfg p j idx e).status = .duplicateDetected ∧
      (processJob cfg p j idx e).crmNotified = true := by
  obtain ⟨n, hn⟩ : ∃ n, cfg.localAttempts = n + 1 :=
    ⟨cfg.localAttempts - 1, by omega⟩
  have hrun :
      runAttempts cfg p j cfg.localAttempts 0 0 idx =
        ⟨.duplicateDetected, idx,
          [.localAttempt 1 (Engines.decide cfg (mrzFromPipeline (p 0)) 1).status,
            .duplicateDetected (p 0).passportHash], true, 1⟩ := by
    rw [hn]
    simp only [runAttempts]
    rw [if_pos ⟨hne, hdup⟩]
  obtain ⟨hs, _, hc⟩ := processJob_components cfg p j idx e
  rw [hs, hc, hrun]
  exact ⟨rfl, rfl⟩

end Orchestrator

/-- C3: if two jobs parse to the same non-empty document-identity hash and the
first terminates auto-accepted — which registers the hash in the process-wide
index — then the second job (run against the resulting index, whatever its
image bytes produced elsewhere in the payload) terminates as
duplicate-detected on its first attempt and notifies the CRM connector;
moreover a job that does not terminate auto-accepted never changes the
index. -/
theorem C3_duplicate_detection (cfg : Engines.OCRSettingsCfg)
    (p1 p2 : Nat → Orchestrator.PipelinePayload) (job1 job2 : String)
    (idx : Orchestrator.MrzIndex) (h : String) (e1 e2 : ℚ)
    (hne : h ≠ "")
    (hp1 : ∀ i, (p1 i).passportHash = h)
    (hp2 : (p2 0).passportHash = h)
    (hatt : 1 ≤ cfg.localAttempts)
    (hacc : (Orchestrator.processJob cfg p1 job1 idx e1).status = .autoAccepted) :
    Orchestrator.checkDuplicate
        (Orchestrator.processJob cfg p1 job1 idx e1).mrzIndex h = true ∧
    (Orchestrator.processJob cfg p2 job2
        (Orchestrator.processJob cfg p1 job1 idx e1).mrzIndex e2).status =
      .duplicateDetected ∧
    (Orchestrator.processJob cfg p2 job2
        (Orchestrator.processJob cfg p1 job1 idx e1).mrzIndex e2).crmNotified =
      true ∧
    (∀ (q : Nat → Orchestrator.PipelinePayload) (job : String) (e : ℚ),
      (Orchestrator.processJob cfg q job idx e).status ≠ .autoAccepted →
      (Orchestrator.processJob cfg q job idx e).mrzIndex = idx) := by
  obtain ⟨hs1, hi1, _⟩ := Orchestrator.processJob_components cfg p1 job1 idx e1
  have hreg :
      (Orchestrator.processJob cfg p1 job1 idx e1).mrzIndex =
        Orchestrator.registerPassportHash idx h job1 := by
    rw [hi1]
    exact Orchestrator.runAttempts_registers cfg p1 job1 h hne hp1
      cfg.localAttempts 0 0 idx (by rw [← hs1]; exact hacc)
  have hlook :
      Orchestrator.checkDuplicate
        (Orchestrator.processJob cfg p1 job1 idx e1).mrzIndex h = true := by
    rw [hreg]
    simp [Orchestrator.checkDuplicate, Orchestrator.registerPassportHash]
  have hdup2 := Orchestrator.processJob_duplicate_first cfg p2 job2
    (Orchestrator.processJob cfg p1 job1 idx e1).mrzIndex e2 hatt
    (by rw [hp2]; exact hne) (by rw [hp2]; exact hlook)
  refine ⟨hlook, hdup2.1, hdup2.2, ?_⟩
  intro q job e hnacc
  obtain ⟨hsq, hiq, _⟩ := Orchestrator.processJob_components cfg q job idx e
  rw [hiq]
  exact Orchestrator.runAttempts_index_unchanged cfg q job cfg.localAttempts 0 0 idx
    (by rw [← hsq]; exact hnacc)

/-- Witness for C3: two constantly auto-accepting payload streams sharing the
hash `h1`, starting from an empty index. -/
theorem C3_duplicate_detection_witness :
    Orchestrator.checkDuplicate
        (Orchestrator.processJob Engines.defaultCfg (fun _ => ⟨"h1", 1, [], true⟩)
          "job-1" [] 0).mrzIndex "h1" = true ∧
    (Orchestrator.processJob Engines.defaultCfg (fun _ => ⟨"h1", 1, [], true⟩)
        "job-2"
        (Orchestrator.processJob Engines.defaultCfg (fun _ => ⟨"h1", 1, [], true⟩)
          "job-1" [] 0).mrzIndex 0).status = .duplicateDetected ∧
    (Orchestrator.processJob Engines.defaultCfg (fun _ => ⟨"h1", 1, [], true⟩)
        "job-2"
        (Orchestrator.processJob Engines.defaultCfg (fun _ => ⟨"h1", 1, [], true⟩)
          "job-1" [] 0).mrzIndex 0).crmNotified = true ∧
    (∀ (q : Nat → Orchestrator.PipelinePayload) (job : String) (e : ℚ),
      (Orchestrator.processJob Engines.defaultCfg q job [] e).status ≠ .autoAccepted →
      (Orchestrator.processJob Engines.defaultCfg q job [] e).mrzIndex = []) :=
  C3_duplicate_detection Engines.defaultCfg (fun _ => ⟨"h1", 1, [], true⟩)
    (fun _ => ⟨"h1", 1, [], true⟩) "job-1" "job-2" [] "h1" 0 0
    (by decide) (fun _ => rfl) rfl (by decide) (by decide)

namespace Orchestrator

theorem decide_lowStream (i c : Nat) :
    Engines.decide cfgNoManual (mrzFromPipeline (lowStream i)) c =
      ⟨.processing, true⟩ := by
  norm_num [Engines.decide, cfgNoManual, mrzFromPipeline, lowStream]

theorem runAttempts_low_exhausts :
    ∀ (r i c : Nat) (idx : MrzIndex),
      (runAttempts cfgNoManual lowStream "job-1" r i c idx).status = .failed ∧
      ((runAttempts cfgNoManual lowStream "job-1" r i c idx).audit.countP fun e =>
        match e with
        | .localAttempt _ _ => true
        | _ => false) = r := by
  intro r
  induction r with
  | zero => intro i c idx; exact ⟨rfl, rfl⟩
  | succ n ih =>
    intro i c idx
    simp only [runAttempts]
    rw [if_neg (by simp [lowStream]), if_neg (by simp [lowStream]),
      if_neg (by rw [decide_lowStream]; simp)]
    refine ⟨(ih (i + 1) (c + 1) idx).1, ?_⟩
    simp only [List.countP_cons]
    rw [(ih (i + 1) (c + 1) idx).2]
    simp [Nat.add_comm]

theorem processJob_numLocalAttempts (cfg : Engines.OCRSettingsCfg)
    (p : Nat → PipelinePayload) (j : String) (idx : MrzIndex) (e : ℚ) :
    numLocalAttempts (processJob cfg p j idx e) =
      ((runAttempts cfg p j cfg.localAttempts 0 0 idx).audit.countP fun ev =>
        match ev with
        | .localAttempt _ _ => true
        | _ => false) := by
  simp only [processJob, numLocalAttempts]
  split <;> simp [List.countP_cons, List.countP_append]

theorem runAttempts_no_slaBreach (cfg : Engines.OCRSettingsCfg)
    (p : Nat → PipelinePayload) (j : String) :
    ∀ (r i c : Nat) (idx : MrzIndex) (x : ℚ),
      AuditEvent.slaBreach x ∉ (runAttempts cfg p j r i c idx).audit := by
  intro r
  induction r with
  | zero => intro i c idx x; simp [runAttempts]
  | succ n ih =>
    intro i c idx x
    simp only [runAttempts]
    by_cases h1 : (p i).passportHash ≠ "" ∧ checkDuplicate idx (p i).passportHash = true
    · rw [if_pos h1]; simp
    · rw [if_neg h1]
      by_cases h2 : (p i).autoAccepted = true
      · rw [if_pos h2]; simp
      · rw [if_neg h2]
        by_cases h3 :
            (Engines.decide cfg (mrzFromPipeline (p i)) (c + 1)).status =
              .manualReview
        · rw [if_pos h3]; simp
        · rw [if_neg h3]
          simp only [List.mem_cons]
          rintro (hx | hx)
          · exact AuditEvent.noConfusion hx
          · exact ih (i + 1) (c + 1) idx x hx

end Orchestrator

/-- C4 counterexample: the claim requires that, along any monotone wall-clock
timeline `t` of attempt starts, no attempt `i` is started once
`t i - t 0` exceeds `total_timeout`.  The embedded `process_job` never reads
the clock inside its loop, so with the default budget of 8 seconds, a
persistently low-confidence submission, and a timeline whose second attempt
would begin 50 seconds in, the run still starts both configured local
attempts — refuting the claim. -/
theorem C4_counterexample :
    ¬ (∀ (t : Nat → ℚ), (∀ a b : Nat, a ≤ b → t a ≤ t b) →
        ∀ i : Nat,
          Orchestrator.cfgNoManual.totalTimeout < t i - t 0 →
          Orchestrator.numLocalAttempts
              (Orchestrator.processJob Orchestrator.cfgNoManual
                Orchestrator.lowStream "job-1" []
                (t Orchestrator.cfgNoManual.localAttempts - t 0)) ≤ i) := by
  intro hclaim
  have hmono : ∀ a b : Nat, a ≤ b →
      (fun n : Nat => (50 : ℚ) * n) a ≤ (fun n : Nat => (50 : ℚ) * n) b := by
    intro a b hab
    have hcast : (a : ℚ) ≤ (b : ℚ) := by exact_mod_cast hab
    simp only
    linarith
  have hbudget :
      Orchestrator.cfgNoManual.totalTimeout <
        (fun n : Nat => (50 : ℚ) * n) 1 - (fun n : Nat => (50 : ℚ) * n) 0 := by
    norm_num [Orchestrator.cfgNoManual]
  have h := hclaim (fun n : Nat => (50 : ℚ) * n) hmono 1 hbudget
  have hcount :
      Orchestrator.numLocalAttempts
          (Orchestrator.processJob Orchestrator.cfgNoManual
            Orchestrator.lowStream "job-1" []
            ((fun n : Nat => (50 : ℚ) * n) Orchestrator.cfgNoManual.localAttempts -
              (fun n : Nat => (50 : ℚ) * n) 0)) = 2 := by
    rw [Orchestrator.processJob_numLocalAttempts]
    exact (Orchestrator.runAttempts_low_exhausts 2 0 0 []).2
  rw [hcount] at h
  exact absurd h (by norm_num)

/-- C4 amended: `process_job` never compares elapsed time to `total_timeout`
before starting an attempt — the terminal status and the number of attempts
started are independent of elapsed time; the budget is consulted only after
the local loop has run to exhausted failure, and then only to append an
`sla_breach` audit entry (when `sla_breach_flag` is set and the elapsed time
exceeds the budget). -/
theorem C4_budget_checked_only_after_loop (cfg : Engines.OCRSettingsCfg)
    (p : Nat → Orchestrator.PipelinePayload) (j : String)
    (idx : Orchestrator.MrzIndex) (e e' : ℚ) :
    (Orchestrator.processJob cfg p j idx e).status =
        (Orchestrator.processJob cfg p j idx e').status ∧
    Orchestrator.numLocalAttempts (Orchestrator.processJob cfg p j idx e) =
        Orchestrator.numLocalAttempts (Orchestrator.processJob cfg p j idx e') ∧
    (Orchestrator.AuditEvent.slaBreach e ∈
        (Orchestrator.processJob cfg p j idx e).audit ↔
      ((Orchestrator.processJob cfg p j idx e).status = .failed ∧
        cfg.slaBreachFlag = true ∧ cfg.totalTimeout < e)) := by
  obtain ⟨hs, _, _⟩ := Orchestrator.processJob_components cfg p j idx e
  obtain ⟨hs', _, _⟩ := Orchestrator.processJob_components cfg p j idx e'
  refine ⟨by rw [hs, hs'], ?_, ?_⟩
  · rw [Orchestrator.processJob_numLocalAttempts,
      Orchestrator.processJob_numLocalAttempts]
  · rw [hs]
    simp only [Orchestrator.processJob]
    split
    · rename_i hcond
      constructor
      · intro _; exact ⟨hcond.1, hcond.2.1, hcond.2.2⟩
      · intro _; simp
    · rename_i hcond
      simp only [List.mem_cons]
      constructor
      · rintro (hx | hx)
        · exact absurd hx (by intro hc; exact Orchestrator.AuditEvent.noConfusion hc)
        · exact absurd hx (Orchestrator.runAttempts_no_slaBreach cfg p j
            cfg.localAttempts 0 0 idx e)
      · intro hx; exact absurd hx hcond

namespace Checklist

theorem mem_dedupAux (a : String) :
    ∀ (xs seen : List String), a ∈ dedupAux seen xs ↔ a ∈ xs ∧ a ∉ seen := by
  intro xs
  induction xs with
  | nil => intro seen; simp [dedupAux]
  | cons h t ih =>
    intro seen
    simp only [dedupAux]
    by_cases hc : seen.contains h
    · rw [if_pos hc, ih seen]
      have hs : h ∈ seen := List.elem_iff.mp hc
      simp only [List.mem_cons]
      constructor
      · rintro ⟨ha, hna⟩
        exact ⟨Or.inr ha, hna⟩
      · rintro ⟨ha | ha, hna⟩
        · exact absurd (ha ▸ hs) hna
        · exact ⟨ha, hna⟩
    · rw [if_neg hc]
      have hs : h ∉ seen := fun hmem => hc (List.elem_iff.mpr hmem)
      simp only [List.mem_cons, ih (h :: seen)]
      by_cases hah : a = h
      · subst hah; simp [hs]
      · simp [hah]

theorem mem_firstOccurrences (a : String) (xs : List String) :
    a ∈ firstOccurrences xs ↔ a ∈ xs := by
  simp [firstOccurrences, mem_dedupAux]

theorem countOcc_eq_count (xs : List String) (h : String) :
    countOcc xs h = xs.count h := by
  rw [countOcc, List.count, List.countP_eq_length_filter]

theorem dupHashes_eq_nil_iff (xs : List String) :
    dupHashes xs = [] ↔ xs.Nodup := by
  rw [dupHashes, List.filter_eq_nil_iff]
  constructor
  · intro hall
    rw [List.nodup_iff_count_le_one]
    intro a
    by_cases hmem : a ∈ xs
    · have := hall a ((mem_firstOccurrences a xs).mpr hmem)
      rw [decide_eq_true_iff, not_lt, countOcc_eq_count] at this
      exact this
    · simp [List.count_eq_zero_of_not_mem hmem]
  · intro hnd a hmem
    rw [mem_firstOccurrences] at hmem
    have := List.nodup_iff_count_le_one.mp hnd a
    rw [decide_eq_true_iff, not_lt, countOcc_eq_count]
    exact this

end Checklist

/-- C6: a checklist evaluation batch containing two documents with the same
document-identity hash aborts with the distinct duplicate-document error and
produces no result — the duplicate error occurs exactly when the submitted
hashes are not pairwise distinct, and a batch of pairwise-distinct hashes
always evaluates to an ordinary result. -/
theorem C6_duplicate_guard (s : Checklist.EngineSettings) (today : Int)
    (docs : List Checklist.ResidentDocument)
    (checklist : List Checklist.ChecklistItem)
    (ov : Option Checklist.OverrideRequest) :
    ((∃ h, Checklist.evaluateChecklist s today docs checklist ov =
        .error (.duplicateDocument h)) ↔
      ¬ (docs.map (·.passportHash)).Nodup) ∧
    ((docs.map (·.passportHash)).Nodup →
      Checklist.evaluateChecklist s today docs checklist ov =
        .ok (Checklist.evaluateCore s today docs checklist ov)) := by
  have hok : (docs.map (·.passportHash)).Nodup →
      Checklist.evaluateChecklist s today docs checklist ov =
        .ok (Checklist.evaluateCore s today docs checklist ov) := by
    intro hnd
    have hD : Checklist.dupHashes (docs.map (·.passportHash)) = [] :=
      (Checklist.dupHashes_eq_nil_iff _).mpr hnd
    simp [Checklist.evaluateChecklist, hD]
  refine ⟨⟨?_, ?_⟩, hok⟩
  · rintro ⟨h, he⟩ hnd
    rw [hok hnd] at he
    exact Except.noConfusion he
  · intro hnnd
    have hne : Checklist.dupHashes (docs.map (·.passportHash)) ≠ [] := by
      rwa [Ne, Checklist.dupHashes_eq_nil_iff]
    obtain ⟨h, t, hd⟩ := List.exists_cons_of_ne_nil hne
    refine ⟨h, ?_⟩
    simp [Checklist.evaluateChecklist, hd]

/-- Witness for C6: a two-document batch with the hashes `dup`/`dup` errors,
one with distinct hashes evaluates to a result. -/
theorem C6_duplicate_guard_witness :
    (∃ h, Checklist.evaluateChecklist ⟨0.8, 0, true⟩ 0
        [⟨"res-1", "national_passport", "RU", "dup", "mh-1", true, none, 0.95, false⟩,
         ⟨"res-1", "residency_form", "RU", "dup", "mh-2", true, none, 0.95, false⟩]
        [] none = .error (.duplicateDocument h)) ∧
    Checklist.evaluateChecklist ⟨0.8, 0, true⟩ 0
        [⟨"res-1", "national_passport", "RU", "ph-1", "mh-1", true, none, 0.95, false⟩,
         ⟨"res-1", "residency_form", "RU", "ph-2", "mh-2", true, none, 0.95, false⟩]
        [] none =
      .ok (Checklist.evaluateCore ⟨0.8, 0, true⟩ 0
        [⟨"res-1", "national_passport", "RU", "ph-1", "mh-1", true, none, 0.95, false⟩,
         ⟨"res-1", "residency_form", "RU", "ph-2", "mh-2", true, none, 0.95, false⟩]
        [] none) :=
  ⟨(C6_duplicate_guard ⟨0.8, 0, true⟩ 0
      [⟨"res-1", "national_passport", "RU", "dup", "mh-1", true, none, 0.95, false⟩,
       ⟨"res-1", "residency_form", "RU", "dup", "mh-2", true, none, 0.95, false⟩]
      [] none).1.mpr (by decide),
   (C6_duplicate_guard ⟨0.8, 0, true⟩ 0
      [⟨"res-1", "national_passport", "RU", "ph-1", "mh-1", true, none, 0.95, false⟩,
       ⟨"res-1", "residency_form", "RU", "ph-2", "mh-2", true, none, 0.95, false⟩]
      [] none).2 (by decide)⟩

namespace Checklist

theorem evaluateCore_none (s : EngineSettings) (today : Int)
    (docs : List ResidentDocument) (checklist : List ChecklistItem) :
    evaluateCore s today docs checklist none =
      { allRequiredSatisfied := (processItems s today docs checklist).blocking.isEmpty
        blockingItems := (processItems s today docs checklist).blocking
        satisfiedItems := (processItems s today docs checklist).satisfied
        missingItems := (processItems s today docs checklist).missing
        managerOverrideUsed := false
        decisionTrace := (processItems s today docs checklist).trace } := rfl

theorem evaluateCore_some_denied (s : EngineSettings) (today : Int)
    (docs : List ResidentDocument) (checklist : List ChecklistItem)
    (o : OverrideRequest) (hallow : s.allowManualOverride = true)
    (hblock : (processItems s today docs checklist).blocking ≠ [])
    (hrole : o.managerRole ≠ "supervisor") :
    evaluateCore s today docs checklist (some o) =
      { allRequiredSatisfied := (processItems s today docs checklist).blocking.isEmpty
        blockingItems := (processItems s today docs checklist).blocking
        satisfiedItems := (processItems s today docs checklist).satisfied
        missingItems := (processItems s today docs checklist).missing
        managerOverrideUsed := false
        decisionTrace := (processItems s today docs checklist).trace ++
          [overrideDeniedEntry o] } := by
  simp only [evaluateCore, applyOverride]
  rw [if_pos ⟨hblock, hallow⟩, if_pos hrole]

theorem evaluateCore_some_approved (s : EngineSettings) (today : Int)
    (docs : List ResidentDocument) (checklist : List ChecklistItem)
    (o : OverrideRequest) (hallow : s.allowManualOverride = true)
    (hblock : (processItems s today docs checklist).blocking ≠ [])
    (hrole : o.managerRole = "supervisor") :
    evaluateCore s today docs checklist (some o) =
      { allRequiredSatisfied := true
        blockingItems := (processItems s today docs checklist).blocking
        satisfiedItems := (processItems s today docs checklist).satisfied
        missingItems := (processItems s today docs checklist).missing
        managerOverrideUsed := true
        decisionTrace := (processItems s today docs checklist).trace ++
          [overrideApprovedEntry o] } := by
  simp only [evaluateCore, applyOverride]
  rw [if_pos ⟨hblock, hallow⟩, if_neg (by simp [hrole])]

theorem processItem_items (s : EngineSettings) (today : Int)
    (docs : List ResidentDocument) (item it : ChecklistItem)
    (hmem : it ∈ (processItem s today docs item).blocking ++
      ((processItem s today docs item).satisfied ++
        (processItem s today docs item).missing)) :
    it.code = item.code ∧ it.description = item.description ∧
      it.required = item.required := by
  rcases hD : docsByType docs (docTypeOfCode item.code) with _ | doc
  · simp only [processItem, hD, List.mem_append] at hmem
    cases hreq : item.required <;> simp [hreq] at hmem <;>
      (subst hmem; simp [hreq])
  · rcases hv : validateDocument s today doc with _ | err <;>
      simp only [processItem, hD, hv, List.mem_append] at hmem <;>
      simp at hmem <;> (subst hmem; exact ⟨rfl, rfl, rfl⟩)

theorem processItems_items_from_checklist (s : EngineSettings) (today : Int)
    (docs : List ResidentDocument) :
    ∀ (checklist : List ChecklistItem) (it : ChecklistItem),
      it ∈ (processItems s today docs checklist).blocking ++
        ((processItems s today docs checklist).satisfied ++
          (processItems s today docs checklist).missing) →
      ∃ src ∈ checklist, it.code = src.code ∧ it.description = src.description ∧
        it.required = src.required := by
  intro checklist
  induction checklist with
  | nil => intro it hmem; simp [processItems] at hmem
  | cons item rest ih =>
    intro it hmem
    simp only [processItems, List.mem_append] at hmem
    rcases hmem with (hc | hc) | ((hc | hc) | (hc | hc))
    · exact ⟨item, List.mem_cons_self item rest,
        processItem_items s today docs item it (by simp [List.mem_append, hc])⟩
    · obtain ⟨src, hsrc, hface⟩ := ih it (by simp [List.mem_append, hc])
      exact ⟨src, List.mem_cons_of_mem item hsrc, hface⟩
    · exact ⟨item, List.mem_cons_self item rest,
        processItem_items s today docs item it (by simp [List.mem_append, hc])⟩
    · obtain ⟨src, hsrc, hface⟩ := ih it (by simp [List.mem_append, hc])
      exact ⟨src, List.mem_cons_of_mem item hsrc, hface⟩
    · exact ⟨item, List.mem_cons_self item rest,
        processItem_items s today docs item it (by simp [List.mem_append, hc])⟩
    · obtain ⟨src, hsrc, hface⟩ := ih it (by simp [List.mem_append, hc])
      exact ⟨src, List.mem_cons_of_mem item hsrc, hface⟩

end Checklist

/-- C7: with overrides allowed and blocking items present, a supplied override
request is honored — `all_required_satisfied` flipped to true with an
`override_approved` trace entry appended — exactly when the requesting role is
the privileged `supervisor` role and the reason is a non-trivial string (at
least 3 characters, which the request model already enforces); a
non-supervisor request is recorded as `override_denied_role` and every other
component of the result equals the evaluation with no override supplied. -/
theorem C7_override_gating (s : Checklist.EngineSettings) (today : Int)
    (docs : List Checklist.ResidentDocument)
    (checklist : List Checklist.ChecklistItem) (o : Checklist.OverrideRequest)
    (hallow : s.allowManualOverride = true)
    (hblock : (Checklist.evaluateCore s today docs checklist none).blockingItems ≠ []) :
    (((Checklist.evaluateCore s today docs checklist (some o)).allRequiredSatisfied =
          true ∧
        (Checklist.evaluateCore s today docs checklist (some o)).decisionTrace =
          (Checklist.evaluateCore s today docs checklist none).decisionTrace ++
            [Checklist.overrideApprovedEntry o]) ↔
      (o.managerRole = "supervisor" ∧ 3 ≤ o.overrideReason.length)) ∧
    (o.managerRole ≠ "supervisor" →
      (Checklist.evaluateCore s today docs checklist (some o)).allRequiredSatisfied =
          (Checklist.evaluateCore s today docs checklist none).allRequiredSatisfied ∧
        (Checklist.evaluateCore s today docs checklist (some o)).blockingItems =
          (Checklist.evaluateCore s today docs checklist none).blockingItems ∧
        (Checklist.evaluateCore s today docs checklist (some o)).satisfiedItems =
          (Checklist.evaluateCore s today docs checklist none).satisfiedItems ∧
        (Checklist.evaluateCore s today docs checklist (some o)).missingItems =
          (Checklist.evaluateCore s today docs checklist none).missingItems ∧
        (Checklist.evaluateCore s today docs checklist (some o)).managerOverrideUsed =
          false ∧
        (Checklist.evaluateCore s today docs checklist (some o)).decisionTrace =
          (Checklist.evaluateCore s today docs checklist none).decisionTrace ++
            [Checklist.overrideDeniedEntry o]) := by
  have hB : (Checklist.processItems s today docs checklist).blocking ≠ [] := hblock
  constructor
  · by_cases hrole : o.managerRole = "supervisor"
    · rw [Checklist.evaluateCore_some_approved s today docs checklist o hallow hB hrole]
      simp [Checklist.evaluateCore_none, hrole, o.reasonMinLen]
    · rw [Checklist.evaluateCore_some_denied s today docs checklist o hallow hB hrole]
      simp only [Checklist.evaluateCore_none]
      constructor
      · rintro ⟨hsat, -⟩
        exact absurd (by simpa using hsat) hB
      · rintro ⟨hs', -⟩
        exact absurd hs' hrole
  · intro hrole
    rw [Checklist.evaluateCore_some_denied s today docs checklist o hallow hB hrole,
      Checklist.evaluateCore_none]
    exact ⟨rfl, rfl, rfl, rfl, rfl, rfl⟩

/-- Witness for C7: one required item, no documents, a denied `manager`
request on an engine allowing overrides. -/
theorem C7_override_gating_witness :
    (((Checklist.evaluateCore c7Settings 0 [] [c7Item]
          (some c7Request)).allRequiredSatisfied = true ∧
        (Checklist.evaluateCore c7Settings 0 [] [c7Item]
            (some c7Request)).decisionTrace =
          (Checklist.evaluateCore c7Settings 0 [] [c7Item] none).decisionTrace ++
            [Checklist.overrideApprovedEntry c7Request]) ↔
      (c7Request.managerRole = "supervisor" ∧
        3 ≤ c7Request.overrideReason.length)) ∧
    (c7Request.managerRole ≠ "supervisor" →
      (Checklist.evaluateCore c7Settings 0 [] [c7Item]
            (some c7Request)).allRequiredSatisfied =
          (Checklist.evaluateCore c7Settings 0 [] [c7Item]
            none).allRequiredSatisfied ∧
        (Checklist.evaluateCore c7Settings 0 [] [c7Item]
            (some c7Request)).blockingItems =
          (Checklist.evaluateCore c7Settings 0 [] [c7Item] none).blockingItems ∧
        (Checklist.evaluateCore c7Settings 0 [] [c7Item]
            (some c7Request)).satisfiedItems =
          (Checklist.evaluateCore c7Settings 0 [] [c7Item] none).satisfiedItems ∧
        (Checklist.evaluateCore c7Settings 0 [] [c7Item]
            (some c7Request)).missingItems =
          (Checklist.evaluateCore c7Settings 0 [] [c7Item] none).missingItems ∧
        (Checklist.evaluateCore c7Settings 0 [] [c7Item]
            (some c7Request)).managerOverrideUsed = false ∧
        (Checklist.evaluateCore c7Settings 0 [] [c7Item]
            (some c7Request)).decisionTrace =
          (Checklist.evaluateCore c7Settings 0 [] [c7Item] none).decisionTrace ++
            [Checklist.overrideDeniedEntry c7Request]) :=
  C7_override_gating c7Settings 0 [] [c7Item] c7Request rfl (by decide)

/-- C10: an approved manager override changes only the aggregate part of the
result — the item partitions are identical to the evaluation without an
override, only `all_required_satisfied`, `manager_override_used` and the
appended trace entry differ — so a result can carry
`all_required_satisfied = true` together with non-empty `blocking_items`.
Evaluation in this embedding is a pure function of its arguments, so the
caller's checklist value is never mutated; the source's deep copy before
setting the satisfaction state corresponds to the final conjunct: every item
in the result is an updated copy of an input item, preserving its identity
fields. -/
theorem C10_override_frame (s : Checklist.EngineSettings) (today : Int)
    (docs : List Checklist.ResidentDocument)
    (checklist : List Checklist.ChecklistItem) (o : Checklist.OverrideRequest)
    (hallow : s.allowManualOverride = true)
    (hsup : o.managerRole = "supervisor")
    (hblock : (Checklist.evaluateCore s today docs checklist none).blockingItems ≠ []) :
    (Checklist.evaluateCore s today docs checklist (some o)).blockingItems =
        (Checklist.evaluateCore s today docs checklist none).blockingItems ∧
      (Checklist.evaluateCore s today docs checklist (some o)).satisfiedItems =
        (Checklist.evaluateCore s today docs checklist none).satisfiedItems ∧
      (Checklist.evaluateCore s today docs checklist (some o)).missingItems =
        (Checklist.evaluateCore s today docs checklist none).missingItems ∧
      (Checklist.evaluateCore s today docs checklist (some o)).allRequiredSatisfied =
        true ∧
      (Checklist.evaluateCore s today docs checklist none).allRequiredSatisfied =
        false ∧
      (Checklist.evaluateCore s today docs checklist (some o)).managerOverrideUsed =
        true ∧
      (Checklist.evaluateCore s today docs checklist none).managerOverrideUsed =
        false ∧
      (Checklist.evaluateCore s today docs checklist (some o)).decisionTrace =
        (Checklist.evaluateCore s today docs checklist none).decisionTrace ++
          [Checklist.overrideApprovedEntry o] ∧
      (Checklist.evaluateCore s today docs checklist (some o)).blockingItems ≠ [] ∧
      (∀ it ∈ (Checklist.evaluateCore s today docs checklist (some o)).blockingItems ++
          ((Checklist.evaluateCore s today docs checklist (some o)).satisfiedItems ++
            (Checklist.evaluateCore s today docs checklist (some o)).missingItems),
        ∃ src ∈ checklist, it.code = src.code ∧ it.description = src.description ∧
          it.required = src.required) := by
  have hB : (Checklist.processItems s today docs checklist).blocking ≠ [] := hblock
  rw [Checklist.evaluateCore_some_approved s today docs checklist o hallow hB hsup,
    Checklist.evaluateCore_none]
  refine ⟨rfl, rfl, rfl, rfl, ?_, rfl, rfl, rfl, hB, ?_⟩
  · simpa using hB
  · intro it hmem
    exact Checklist.processItems_items_from_checklist s today docs checklist it hmem

/-- Witness for C10: the supervisor override on the one-required-item,
no-documents evaluation flips the aggregate flag while the blocking list stays
non-empty. -/
theorem C10_override_frame_witness :
    (Checklist.evaluateCore c7Settings 0 [] [c7Item]
        (some c10Request)).blockingItems =
      (Checklist.evaluateCore c7Settings 0 [] [c7Item] none).blockingItems ∧
    (Checklist.evaluateCore c7Settings 0 [] [c7Item]
        (some c10Request)).satisfiedItems =
      (Checklist.evaluateCore c7Settings 0 [] [c7Item] none).satisfiedItems ∧
    (Checklist.evaluateCore c7Settings 0 [] [c7Item]
        (some c10Request)).missingItems =
      (Checklist.evaluateCore c7Settings 0 [] [c7Item] none).missingItems ∧
    (Checklist.evaluateCore c7Settings 0 [] [c7Item]
        (some c10Request)).allRequiredSatisfied = true ∧
    (Checklist.evaluateCore c7Settings 0 [] [c7Item]
        none).allRequiredSatisfied = false ∧
    (Checklist.evaluateCore c7Settings 0 [] [c7Item]
        (some c10Request)).managerOverrideUsed = true ∧
    (Checklist.evaluateCore c7Settings 0 [] [c7Item]
        none).managerOverrideUsed = false ∧
    (Checklist.evaluateCore c7Settings 0 [] [c7Item]
        (some c10Request)).decisionTrace =
      (Checklist.evaluateCore c7Settings 0 [] [c7Item] none).decisionTrace ++
        [Checklist.overrideApprovedEntry c10Request] ∧
    (Checklist.evaluateCore c7Settings 0 [] [c7Item]
        (some c10Request)).blockingItems ≠ [] ∧
    (∀ it ∈ (Checklist.evaluateCore c7Settings 0 [] [c7Item]
          (some c10Request)).blockingItems ++
        ((Checklist.evaluateCore c7Settings 0 [] [c7Item]
            (some c10Request)).satisfiedItems ++
          (Checklist.evaluateCore c7Settings 0 [] [c7Item]
            (some c10Request)).missingItems),
      ∃ src ∈ [c7Item], it.code = src.code ∧ it.description = src.description ∧
        it.required = src.required) :=
  C10_override_frame c7Settings 0 [] [c7Item] c10Request rfl rfl (by decide)

/-- C8 counterexample: with the `foreign_passport` rule unset but a fallback
rule registered, resolving the plausible two-letter code `XX` raises the
missing-rule error instead of applying the fallback — contradicting "if that
rule is unset, the registered fallback rule applies" and the "only when no
fallback is registered" scoping of the error. -/
theorem C8_counterexample :
    Rules.resolveRequiredDocs Rules.registryFallbackOnly "XX" =
      .error (.ruleNotRegistered "foreign_passport") ∧
    Rules.resolveRequiredDocs Rules.registryFallbackOnly "XX" ≠
      .ok ["fallback_doc"] := by
  have h1 : Rules.resolveRequiredDocs Rules.registryFallbackOnly "XX" =
      .error (.ruleNotRegistered "foreign_passport") := rfl
  refine ⟨h1, ?_⟩
  rw [h1]
  intro hcontra
  exact Except.noConfusion hcontra

/-- C8 amended: an unmatched code of valid 2-3 letter form is resolved by the
named `foreign_passport` rule when registered, and raises the named
missing-rule error when that rule is unset — the fallback is NOT consulted on
this path; the fallback applies exactly to codes outside the 2-3 letter form,
and only when additionally no fallback is registered does resolution raise the
named missing-nationality error (it never returns an empty list silently). -/
theorem C8_resolution (r : Rules.Registry) (nationality : String)
    (hcis : Rules.pyStripUpper nationality ∉ r.cisCountries)
    (hid : Rules.pyStripUpper nationality ∉ r.idCardCountries)
    (hvisa : Rules.pyStripUpper nationality ∉ r.visaRequiredCountries) :
    ((Rules.pyStripUpper nationality).length = 2 ∨
        (Rules.pyStripUpper nationality).length = 3 →
      (∀ f, Rules.lookupRule r.namedRules "foreign_passport" = some f →
        Rules.resolveRequiredDocs r nationality =
          .ok (f (Rules.pyStripUpper nationality))) ∧
      (Rules.lookupRule r.namedRules "foreign_passport" = none →
        Rules.resolveRequiredDocs r nationality =
          .error (.ruleNotRegistered "foreign_passport"))) ∧
    (¬ ((Rules.pyStripUpper nationality).length = 2 ∨
        (Rules.pyStripUpper nationality).length = 3) →
      (∀ f, r.fallbackRule = some f →
        Rules.resolveRequiredDocs r nationality =
          .ok (f (Rules.pyStripUpper nationality))) ∧
      (r.fallbackRule = none →
        Rules.resolveRequiredDocs r nationality =
          .error (.missingNationality nationality))) := by
  constructor
  · intro hlen
    constructor
    · intro f hf
      simp [Rules.resolveRequiredDocs, hcis, hid, hvisa, hlen,
        Rules.requireRule, hf, Except.map]
    · intro hf
      simp [Rules.resolveRequiredDocs, hcis, hid, hvisa, hlen,
        Rules.requireRule, hf, Except.map]
  · intro hlen
    constructor
    · intro f hf
      simp [Rules.resolveRequiredDocs, hcis, hid, hvisa, hlen, hf]
    · intro hf
      simp [Rules.resolveRequiredDocs, hcis, hid, hvisa, hlen, hf]

/-- Witness for C8: the default-set registry with only a `foreign_passport`
rule registered resolves `XX` by that rule, and with nothing registered the
empty-form code `XXXX` raises the missing-nationality error. -/
theorem C8_resolution_witness :
    Rules.resolveRequiredDocs
        { Rules.defaultRegistrySets with
            namedRules := [("foreign_passport",
              fun _ => ["foreign_passport", "migration_card"])] } "XX" =
      .ok ["foreign_passport", "migration_card"] ∧
    Rules.resolveRequiredDocs Rules.defaultRegistrySets "XXXX" =
      .error (.missingNationality "XXXX") :=
  ⟨((C8_resolution
      { Rules.defaultRegistrySets with
          namedRules := [("foreign_passport",
            fun _ => ["foreign_passport", "migration_card"])] } "XX"
      (by decide) (by decide) (by decide)).1 (Or.inl (by decide))).1
      (fun _ => ["foreign_passport", "migration_card"]) rfl,
   ((C8_resolution Rules.defaultRegistrySets "XXXX" (by decide) (by decide)
      (by decide)).2 (by decide)).2 rfl⟩
